import Mathlib

/-!
Verification of the model-lifecycle manager in `backend/app/utils.py`
(`UserModelManager`): sample pools, diversity gate, specialist training
with dynamic percentile thresholds, routing/scoring, and retraining.

Modelling conventions:
* Feature values are rationals (`ℚ`); the 14 features of the manager
  (10 mouse features, 4 typing features) are the fields of `Vec`.
* A pool file is `Option (List Vec)`: `none` models a missing CSV file,
  `some l` a file with a header and the records `l` (so `some []` is the
  header-only empty state).
* An IsolationForest detector is abstracted as a scoring function
  `List ℚ → ℚ` on a projected feature row (`decision_function` on one row);
  fitting is an abstract `Fit` parameter that may fail (`none` models an
  exception raised by `model.fit`, caught by the callers' `try/except`).
* `joblib.dump` to a temp file followed by `rename` is modelled as an
  atomic update of the package slot: a slot always holds either the prior
  complete package or the new complete package, mirroring the
  write-temp-then-rename sequence in `_train_and_save_specialist`.
-/

/-- One feature vector: the 14 features used by `UserModelManager`
(`mouse_features` then `typing_features` as listed in `__init__`). -/
structure Vec where
  avg_mouse_speed : ℚ
  std_mouse_speed : ℚ
  avg_mouse_acceleration : ℚ
  std_mouse_acceleration : ℚ
  path_straightness : ℚ
  avg_click_duration : ℚ
  avg_pause_duration : ℚ
  pause_frequency : ℚ
  avg_turn_angle : ℚ
  avg_stroke_velocity : ℚ
  avg_dwell_time_alpha : ℚ
  avg_flight_time_digraph : ℚ
  std_flight_time_digraph : ℚ
  typing_speed_kps : ℚ
deriving DecidableEq

/-- Projection `df[self.mouse_features]` of one row. -/
def mouseFeatures (v : Vec) : List ℚ :=
  [v.avg_mouse_speed, v.std_mouse_speed, v.avg_mouse_acceleration,
   v.std_mouse_acceleration, v.path_straightness, v.avg_click_duration,
   v.avg_pause_duration, v.pause_frequency, v.avg_turn_angle,
   v.avg_stroke_velocity]

/-- Projection `df[self.typing_features]` of one row. -/
def typingFeatures (v : Vec) : List ℚ :=
  [v.avg_dwell_time_alpha, v.avg_flight_time_digraph,
   v.std_flight_time_digraph, v.typing_speed_kps]

/-- Projection `df[self.all_feature_names]` of one row (a fixed order over
all 14 features; the exact order is fixed by the extractor and is
irrelevant to the properties proved here). -/
def allFeatures (v : Vec) : List ℚ :=
  mouseFeatures v ++ typingFeatures v

/-- `df["avg_mouse_speed"] > 0`, the mouse-activity indicator. -/
def mouseActive (v : Vec) : Bool := decide (0 < v.avg_mouse_speed)

/-- `df["typing_speed_kps"] > 0`, the typing-activity indicator. -/
def typingActive (v : Vec) : Bool := decide (0 < v.typing_speed_kps)

/-- `np.percentile(scores, 5)` with numpy's default linear interpolation:
on the ascending sort `s` of the input, with `h = (n-1)*5/100`,
the value `s[⌊h⌋] + (h-⌊h⌋)*(s[⌊h⌋+1]-s[⌊h⌋])`. -/
def percentile5 (l : List ℚ) : ℚ :=
  let s := List.insertionSort (fun a b => a ≤ b) l
  let h : ℚ := ((l.length : ℚ) - 1) * 5 / 100
  let i : ℕ := h.floor.toNat
  let lo := s.getD i 0
  let hi := s.getD (i + 1) lo
  lo + (h - (i : ℚ)) * (hi - lo)

/-- A persisted specialist model package `{'model': model, 'threshold': t}`. -/
structure Package where
  model : List ℚ → ℚ
  threshold : ℚ

/-- Abstract `IsolationForest(**params).fit(features)`: from the projected
training rows, either a trained scoring function (`decision_function`) or
`none` when the fit raises (a `TrainingError`). -/
def Fit : Type := List (List ℚ) → Option (List ℚ → ℚ)

/-- `_train_and_save_specialist`: skip when fewer than 20 rows (keeping the
prior package slot), otherwise fit, calibrate the threshold as the 5th
percentile of the training scores, and atomically replace the package.
The outer `Option` is exception propagation: `none` when the fit raised. -/
def trainAndSaveSpecialist (fit : Fit) (df : List Vec) (proj : Vec → List ℚ)
    (prior : Option Package) : Option (Option Package) :=
  if df.length < 20 then some prior
  else
    match fit (df.map proj) with
    | none => none
    | some m =>
        some (some ⟨m, percentile5 ((df.map proj).map m)⟩)

/-- `df[is_mouse_active & ~is_typing_active]`. -/
def mouseOnlySubset (df : List Vec) : List Vec :=
  df.filter (fun v => mouseActive v && !typingActive v)

/-- `df[~is_mouse_active & is_typing_active]`. -/
def typingOnlySubset (df : List Vec) : List Vec :=
  df.filter (fun v => !mouseActive v && typingActive v)

/-- `df[is_mouse_active & is_typing_active]`. -/
def mixedSubset (df : List Vec) : List Vec :=
  df.filter (fun v => mouseActive v && typingActive v)

/-- Per-profile persisted state: the two pool files and the three
specialist package slots. -/
structure UserState where
  features : Option (List Vec)
  retraining_pool : Option (List Vec)
  model_mouse : Option Package
  model_typing : Option Package
  model_mixed : Option Package

/-- The shared body of `train_initial_model` / `retrain_model`: segment
`df` and run the three `_train_and_save_specialist` calls in source order
(mouse, typing, mixed). An exception aborts the sequence but keeps the
packages already replaced; the `Bool` is the caller's return value. -/
def trainSpecialists (fit : Fit) (df : List Vec) (s : UserState) :
    UserState × Bool :=
  match trainAndSaveSpecialist fit (mouseOnlySubset df) mouseFeatures s.model_mouse with
  | none => (s, false)
  | some pm =>
    match trainAndSaveSpecialist fit (typingOnlySubset df) typingFeatures s.model_typing with
    | none => ({ s with model_mouse := pm }, false)
    | some pt =>
      match trainAndSaveSpecialist fit (mixedSubset df) allFeatures s.model_mixed with
      | none => ({ s with model_mouse := pm, model_typing := pt }, false)
      | some px =>
          ({ s with model_mouse := pm, model_typing := pt, model_mixed := px }, true)

/-- `train_initial_model`: fails (returns `false`) when `features.csv` is
missing, otherwise segments the primary pool and trains the specialists. -/
def train_initial_model (fit : Fit) (s : UserState) : UserState × Bool :=
  match s.features with
  | none => (s, false)
  | some df => trainSpecialists fit df s

/-- `retrain_model`: requires both pool files, concatenates them, retrains
the specialists, and on success truncates the retraining pool to its
header-only empty state before returning `true`. -/
def retrain_model (fit : Fit) (s : UserState) : UserState × Bool :=
  match s.features, s.retraining_pool with
  | some df, some rdf =>
      match trainSpecialists fit (df ++ rdf) s with
      | (s1, true) => ({ s1 with retraining_pool := some [] }, true)
      | (s1, false) => (s1, false)
  | _, _ => (s, false)

/-- The routing target `model_type` chosen by `score`. -/
inductive ModelType where
  | mouse
  | typing
  | mixed
deriving DecidableEq

/-- The `feature_subset` used for each `model_type`. -/
def featureSubset : ModelType → Vec → List ℚ
  | .mouse => mouseFeatures
  | .typing => typingFeatures
  | .mixed => allFeatures

/-- `load_model_package`: `None` when the package file does not exist. -/
def load_model_package (s : UserState) : ModelType → Option Package
  | .mouse => s.model_mouse
  | .typing => s.model_typing
  | .mixed => s.model_mixed

/-- The routing rule of `score`: mouse-only activity routes to the mouse
specialist, typing-only to the typing specialist, everything else
(both active, or neither) to the mixed model. -/
def routeModelType (v : Vec) : ModelType :=
  if mouseActive v && !typingActive v then .mouse
  else if !mouseActive v && typingActive v then .typing
  else .mixed

/-- The dictionary returned by `score`. -/
structure ScoreResult where
  is_anomaly : Bool
  score : ℚ
  model_used : ModelType
  threshold : ℚ

/-- `score`: route by the activity indicators, load the routed package,
fall back to the `mixed` package when it is missing, and raise
(`none`, the `ValueError`) when that is missing too; the verdict is
`score < threshold` for the single model actually used. -/
def score (s : UserState) (v : Vec) : Option ScoreResult :=
  let mt := routeModelType v
  match load_model_package s mt with
  | some pkg =>
      some ⟨decide (pkg.model (featureSubset mt v) < pkg.threshold),
            pkg.model (featureSubset mt v), mt, pkg.threshold⟩
  | none =>
    match s.model_mixed with
    | some pkg =>
        some ⟨decide (pkg.model (allFeatures v) < pkg.threshold),
              pkg.model (allFeatures v), .mixed, pkg.threshold⟩
    | none => none

/-- `save_features`: append one timestamped row to the chosen pool,
creating the file (header first) when absent; returns the new row count. -/
def save_features (s : UserState) (v : Vec) (is_retraining_sample : Bool) :
    UserState × ℕ :=
  if is_retraining_sample then
    let l := s.retraining_pool.getD []
    ({ s with retraining_pool := some (l ++ [v]) }, (l ++ [v]).length)
  else
    let l := s.features.getD []
    ({ s with features := some (l ++ [v]) }, (l ++ [v]).length)

/-- Diversity minimums from `__init__`. -/
def min_samples_for_training : ℕ := 300

/-- Minimum keyboard-active samples. -/
def min_keyboard_samples : ℕ := 50

/-- Minimum mouse-active samples. -/
def min_mouse_samples : ℕ := 150

/-- Minimum digraph samples. -/
def min_digraph_samples : ℕ := 30

/-- The dictionary returned by `check_diversity` (`current` counts and
the readiness flag; the fixed `required` values are the constants above). -/
structure DiversityStatus where
  total : ℕ
  keyboard : ℕ
  mouse : ℕ
  digraphs : ℕ
  is_ready : Bool
deriving DecidableEq

/-- `check_diversity`: counts over the primary pool (all zero with
`is_ready = false` when the file is missing). -/
def check_diversity (s : UserState) : DiversityStatus :=
  match s.features with
  | none => ⟨0, 0, 0, 0, false⟩
  | some df =>
      let total := df.length
      let keyboard := df.countP (fun v => typingActive v)
      let mouse := df.countP (fun v => mouseActive v)
      let digraphs := df.countP (fun v => decide (0 < v.avg_flight_time_digraph))
      ⟨total, keyboard, mouse, digraphs,
       decide (min_samples_for_training ≤ total ∧
               min_keyboard_samples ≤ keyboard ∧
               min_mouse_samples ≤ mouse ∧
               min_digraph_samples ≤ digraphs)⟩

/-- A sequence of `/api/train` submissions: each sample is appended to the
primary pool via `save_features`. -/
def submitSamples (s : UserState) (vs : List Vec) : UserState :=
  vs.foldl (fun st v => (save_features st v false).1) s

/-- The all-zero feature vector (no activity at all). -/
def vZero : Vec := ⟨0, 0, 0, 0, 0, 0, 0, 0, 0, 0, 0, 0, 0, 0⟩

/-- A mouse-only record: positive mouse indicator, no typing activity. -/
def vMouse : Vec := { vZero with avg_mouse_speed := 1 }

/-- A typing-only record with zero digraph timing. -/
def vTyping : Vec := { vZero with typing_speed_kps := 1 }

/-- A typing-only record carrying a nonzero digraph-timing value. -/
def vTypingDigraph : Vec :=
  { vZero with typing_speed_kps := 1, avg_flight_time_digraph := 1 }

/-- A record with both modality indicators positive. -/
def vBoth : Vec := { vZero with avg_mouse_speed := 1, typing_speed_kps := 1 }

/-- A total fit that always returns the constant-zero scoring function. -/
def fitConst : Fit := fun _ => some (fun _ => 0)

/-- A profile holding all three packages: the mouse model scores every row
`0` against threshold `1` (so it would flag), while the typing and mixed
models score every row `5` against threshold `1` (so they would not). -/
def sFull : UserState :=
  ⟨none, none, some ⟨fun _ => 0, 1⟩, some ⟨fun _ => 5, 1⟩, some ⟨fun _ => 5, 1⟩⟩

/-- A profile trained on the mouse modality only: a mouse package exists,
but no typing and no mixed package. -/
def sMouseOnly : UserState := ⟨none, none, some ⟨fun _ => 0, 1⟩, none, none⟩

/-- A primary pool of 25 records all having both indicators positive. -/
def sAllBoth : UserState := ⟨some (List.replicate 25 vBoth), none, none, none, none⟩

/-- A profile whose primary pool file exists but holds zero records
(header-only state). -/
def sEmptyPool : UserState := ⟨some [], none, none, none, none⟩

/-- A fit that succeeds on mouse-feature rows (10 columns) but raises on
typing-feature rows (4 columns), to exhibit a mid-run training failure. -/
def fitTypingFails : Fit := fun rows =>
  if (rows.headD []).length = 4 then none else some (fun _ => 0)

/-- A prior mouse package with a recognizable threshold. -/
def priorMousePkg : Package := ⟨fun _ => 0, 99⟩

/-- A profile with a prior mouse package, a primary pool of 20 mouse-only
and 20 typing-only records, and an empty retraining pool. -/
def sRetrainFail : UserState :=
  ⟨some (List.replicate 20 vMouse ++ List.replicate 20 vTyping), some [],
   some priorMousePkg, none, none⟩

/-- The 300-vector pool of the diversity scenario: 200 mouse-only, 50
typing-only without digraph timing, 30 typing-only with digraph timing,
20 with both indicators. -/
def dfScenario : List Vec :=
  List.replicate 200 vMouse ++ List.replicate 50 vTyping ++
  List.replicate 30 vTypingDigraph ++ List.replicate 20 vBoth

/-- The profile `"p1"` of the diversity scenario. -/
def sScenario : UserState := ⟨some dfScenario, none, none, none, none⟩

/-- Componentwise order on diversity statuses: no count decreases and
readiness is preserved. -/
def DiversityLE (d e : DiversityStatus) : Prop :=
  d.total ≤ e.total ∧ d.keyboard ≤ e.keyboard ∧ d.mouse ≤ e.mouse ∧
  d.digraphs ≤ e.digraphs ∧ (d.is_ready = true → e.is_ready = true)

/-- A profile with no files at all. -/
def sNoPool : UserState := ⟨none, none, none, none, none⟩

/-- A profile with an empty primary pool and a one-record retraining pool. -/
def sSmallPools : UserState := ⟨some [], some [vMouse], none, none, none⟩

set_option maxRecDepth 8000

/-- Helper: a completed `_train_and_save_specialist` call leaves the slot
holding either the prior package or some complete new package. -/
theorem trainAndSaveSpecialist_prior_or_new (fit : Fit) (df : List Vec)
    (proj : Vec → List ℚ) (prior p : Option Package)
    (h : trainAndSaveSpecialist fit df proj prior = some p) :
    p = prior ∨ ∃ pkg, p = some pkg := by
  unfold trainAndSaveSpecialist at h
  split at h
  · exact Or.inl (Option.some.inj h).symm
  · cases hf : fit (df.map proj) <;> rw [hf] at h
    · exact absurd h (by simp)
    · exact Or.inr ⟨_, (Option.some.inj h).symm⟩

/-- Helper: a total fit never raises, so `_train_and_save_specialist`
always completes, keeping the prior slot when the subset is undersized. -/
theorem trainAndSaveSpecialist_total (fit : Fit) (df : List Vec)
    (proj : Vec → List ℚ) (prior : Option Package)
    (hfit : ∀ rows, (fit rows).isSome = true) :
    ∃ p, trainAndSaveSpecialist fit df proj prior = some p ∧
      (df.length < 20 → p = prior) := by
  unfold trainAndSaveSpecialist
  split
  · exact ⟨prior, rfl, fun _ => rfl⟩
  · rename_i hlen
    cases hf : fit (df.map proj)
    · exact absurd (hfit (df.map proj)) (by simp [hf])
    · exact ⟨_, rfl, fun h => absurd h hlen⟩

/-- Helper: the training body never touches either pool file. -/
theorem trainSpecialists_pools (fit : Fit) (df : List Vec) (s : UserState) :
    (trainSpecialists fit df s).1.retraining_pool = s.retraining_pool ∧
    (trainSpecialists fit df s).1.features = s.features := by
  unfold trainSpecialists
  cases trainAndSaveSpecialist fit (mouseOnlySubset df) mouseFeatures s.model_mouse
  · exact ⟨rfl, rfl⟩
  · cases trainAndSaveSpecialist fit (typingOnlySubset df) typingFeatures s.model_typing
    · exact ⟨rfl, rfl⟩
    · cases trainAndSaveSpecialist fit (mixedSubset df) allFeatures s.model_mixed
      · exact ⟨rfl, rfl⟩
      · exact ⟨rfl, rfl⟩

/-- C7: for profile `"p1"` with 300 training vectors (200 mouse-only, 80
typing-only of which 30 carry nonzero digraph timing, 20 with both
indicators), the diversity evaluation reports total 300, keyboard 100,
mouse 220, digraphs 30 and `is_ready = true` under the default minimums. -/
theorem claim_C7_thm : check_diversity sScenario = ⟨300, 100, 220, 30, true⟩ := by
  decide

/-- C1 counterexample: a profile with trained mouse, typing and mixed
packages; on a vector with both indicators positive the mouse specialist's
score (0) is strictly below its threshold (1) while the typing score (5) is
above its threshold, yet `score` reports `is_anomaly = false` — the code
routes a both-active vector to the single mixed model, not to an OR-fusion
of the specialists. -/
theorem claim_C1_counterexample :
    (load_model_package sFull ModelType.mouse).isSome = true ∧
    (load_model_package sFull ModelType.typing).isSome = true ∧
    mouseActive vBoth = true ∧ typingActive vBoth = true ∧
    (load_model_package sFull ModelType.mouse).map
      (fun p => decide (p.model (mouseFeatures vBoth) < p.threshold)) = some true ∧
    (load_model_package sFull ModelType.typing).map
      (fun p => decide (p.model (typingFeatures vBoth) < p.threshold)) = some false ∧
    (score sFull vBoth).map ScoreResult.is_anomaly = some false :=
  ⟨rfl, rfl, rfl, rfl, rfl, rfl, rfl⟩

/-- C1 (amended): a vector with both indicators positive is routed to the
mixed model alone: when a mixed package exists, `is_anomaly` is true iff
the mixed model's score over all features is strictly below the mixed
threshold, regardless of the mouse and typing specialists; when no mixed
package exists the request fails, even if mouse and typing packages are
trained. -/
theorem claim_C1_thm (s : UserState) (v : Vec)
    (hm : mouseActive v = true) (ht : typingActive v = true) :
    (∀ pkg, s.model_mixed = some pkg →
      score s v = some ⟨decide (pkg.model (allFeatures v) < pkg.threshold),
                        pkg.model (allFeatures v), ModelType.mixed, pkg.threshold⟩ ∧
      ((score s v).map ScoreResult.is_anomaly = some true ↔
        pkg.model (allFeatures v) < pkg.threshold)) ∧
    (s.model_mixed = none → score s v = none) := by
  have hroute : routeModelType v = ModelType.mixed := by
    simp [routeModelType, hm, ht]
  constructor
  · intro pkg hpkg
    have hs : score s v = some ⟨decide (pkg.model (allFeatures v) < pkg.threshold),
        pkg.model (allFeatures v), ModelType.mixed, pkg.threshold⟩ := by
      simp only [score, hroute, load_model_package, hpkg, featureSubset]
    refine ⟨hs, ?_⟩
    rw [hs]
    simp
  · intro hnone
    simp only [score, hroute, load_model_package, hnone]

/-- C1 witness: on the concrete profile `sFull` the amended routing rule
evaluates: the both-active vector gets the mixed verdict (score 5,
threshold 1, not anomalous). -/
theorem claim_C1_witness :
    mouseActive vBoth = true ∧ typingActive vBoth = true ∧
    score sFull vBoth = some ⟨false, 5, ModelType.mixed, 1⟩ :=
  ⟨rfl, rfl, ((claim_C1_thm sFull vBoth rfl rfl).1 ⟨fun _ => 5, 1⟩ rfl).1⟩

/-- C2 counterexample: a pool of 25 records all having both indicators
positive. The claim's overlapping partition would put all 25 in both the
mouse and the typing training sets (each well above the minimum of 20);
the code instead computes empty mouse-only and typing-only subsets, trains
no mouse or typing specialist, and trains only the mixed one. -/
theorem claim_C2_counterexample :
    mouseActive vBoth = true ∧ typingActive vBoth = true ∧
    (List.replicate 25 vBoth).countP (fun v => mouseActive v) = 25 ∧
    (List.replicate 25 vBoth).countP (fun v => typingActive v) = 25 ∧
    mouseOnlySubset (List.replicate 25 vBoth) = [] ∧
    typingOnlySubset (List.replicate 25 vBoth) = [] ∧
    (train_initial_model fitConst sAllBoth).2 = true ∧
    (train_initial_model fitConst sAllBoth).1.model_mouse = none ∧
    (train_initial_model fitConst sAllBoth).1.model_typing = none ∧
    ((train_initial_model fitConst sAllBoth).1.model_mixed).isSome = true :=
  ⟨rfl, rfl, rfl, rfl, rfl, rfl, rfl, rfl, rfl, rfl⟩

/-- C2 (amended): training partitions the pool into three disjoint
subsets — mouse-only records (mouse indicator positive, typing not) feed
the mouse specialist, typing-only records the typing specialist, and
records with both indicators positive feed only the mixed specialist,
never the mouse or typing ones. -/
theorem claim_C2_thm (df : List Vec) (v : Vec) (hv : v ∈ df) :
    (v ∈ mouseOnlySubset df ↔ (mouseActive v = true ∧ typingActive v = false)) ∧
    (v ∈ typingOnlySubset df ↔ (mouseActive v = false ∧ typingActive v = true)) ∧
    (v ∈ mixedSubset df ↔ (mouseActive v = true ∧ typingActive v = true)) ∧
    (mouseActive v = true → typingActive v = true →
      v ∈ mixedSubset df ∧ v ∉ mouseOnlySubset df ∧ v ∉ typingOnlySubset df) := by
  simp only [mouseOnlySubset, typingOnlySubset, mixedSubset, List.mem_filter,
    Bool.and_eq_true, Bool.not_eq_true']
  refine ⟨⟨fun h => h.2, fun h => ⟨hv, h⟩⟩, ⟨fun h => h.2, fun h => ⟨hv, h⟩⟩,
    ⟨fun h => h.2, fun h => ⟨hv, h⟩⟩, fun hm ht => ⟨⟨hv, hm, ht⟩, ?_, ?_⟩⟩
  · rintro ⟨-, -, hf⟩
    rw [ht] at hf
    cases hf
  · rintro ⟨-, hf, -⟩
    rw [hm] at hf
    cases hf

/-- C2 witness: the concrete both-active record lands in the mixed subset
and in neither single-modality subset. -/
theorem claim_C2_witness :
    vBoth ∈ mixedSubset [vBoth] ∧ vBoth ∉ mouseOnlySubset [vBoth] ∧
    vBoth ∉ typingOnlySubset [vBoth] :=
  (claim_C2_thm [vBoth] vBoth (by simp)).2.2.2 rfl rfl

/-- C3 counterexample: a profile trained on the mouse modality only (mouse
package present, typing and mixed absent). On a vector with both
indicators positive — so the typing modality is active but untrained while
the mouse modality is active and trained — `score` fails the whole request
(the `ValueError`), instead of contributing a neutral placeholder for the
missing modality. -/
theorem claim_C3_counterexample :
    mouseActive vBoth = true ∧ typingActive vBoth = true ∧
    (sMouseOnly.model_mouse).isSome = true ∧
    sMouseOnly.model_typing = none ∧
    score sMouseOnly vBoth = none :=
  ⟨rfl, rfl, rfl, rfl, rfl⟩

/-- C3 (amended): when the routed specialist's package is missing, the
scorer does not use a neutral placeholder — it falls back to the mixed
package over all features, and when that is missing too the request fails
(`None`, the `ValueError`). -/
theorem claim_C3_thm (s : UserState) (v : Vec)
    (h : load_model_package s (routeModelType v) = none) :
    score s v = (s.model_mixed).map (fun pkg =>
      ⟨decide (pkg.model (allFeatures v) < pkg.threshold),
       pkg.model (allFeatures v), ModelType.mixed, pkg.threshold⟩) := by
  simp only [score, h]
  cases hm : s.model_mixed <;> simp

/-- C3 witness: the typing-only vector on the mouse-only profile routes to
the missing typing package and the request fails. -/
theorem claim_C3_witness :
    load_model_package sMouseOnly (routeModelType vTyping) = none ∧
    score sMouseOnly vTyping = (sMouseOnly.model_mixed).map (fun pkg =>
      ⟨decide (pkg.model (allFeatures vTyping) < pkg.threshold),
       pkg.model (allFeatures vTyping), ModelType.mixed, pkg.threshold⟩) :=
  ⟨rfl, claim_C3_thm sMouseOnly vTyping rfl⟩

/-- C4: with both pool files present, a retraining run that reports
failure leaves the retraining pool exactly as it was, and a run that
reports success truncates it to the header-only empty state — the pool is
cleared in exactly the success case. -/
theorem claim_C4_thm (fit : Fit) (s : UserState) (df rdf : List Vec)
    (hf : s.features = some df) (hr : s.retraining_pool = some rdf) :
    ((retrain_model fit s).2 = false →
      (retrain_model fit s).1.retraining_pool = some rdf) ∧
    ((retrain_model fit s).2 = true →
      (retrain_model fit s).1.retraining_pool = some []) := by
  have hpool := (trainSpecialists_pools fit (df ++ rdf) s).1
  rcases hts : trainSpecialists fit (df ++ rdf) s with ⟨s1, b⟩
  rw [hts] at hpool
  cases b
  · have hre : retrain_model fit s = (s1, false) := by
      simp only [retrain_model, hf, hr, hts]
    rw [hre]
    exact ⟨fun _ => hpool.trans hr, fun h => absurd h (by simp)⟩
  · have hre : retrain_model fit s = ({ s1 with retraining_pool := some [] }, true) := by
      simp only [retrain_model, hf, hr, hts]
    rw [hre]
    exact ⟨fun h => absurd h (by simp), fun _ => rfl⟩

/-- C4 witness: a concrete retrain on a profile with an empty primary pool
and a one-record retraining pool succeeds and truncates the pool. -/
theorem claim_C4_witness :
    ((retrain_model fitConst sSmallPools).2 = false →
      (retrain_model fitConst sSmallPools).1.retraining_pool = some [vMouse]) ∧
    ((retrain_model fitConst sSmallPools).2 = true →
      (retrain_model fitConst sSmallPools).1.retraining_pool = some []) :=
  claim_C4_thm fitConst sSmallPools [] [vMouse] rfl rfl

/-- C5 counterexample: a primary pool file holding zero records. The claim
says initial training must fail ("no trainable data"), but
`train_initial_model` reports success: every subset is empty, each
specialist is skipped, and the run returns `True` leaving the state
untouched. -/
theorem claim_C5_counterexample :
    sEmptyPool.features = some ([] : List Vec) ∧
    train_initial_model fitConst sEmptyPool = (sEmptyPool, true) :=
  ⟨rfl, rfl⟩

/-- C5 (amended): a missing primary pool fails the whole operation; a pool
file that exists — even with zero records — reports success, with every
modality subset below the minimum of 20 merely skipped (its package slot
left unchanged) and no failure; with a fit that never raises, the
operation succeeds whenever the pool file exists. -/
theorem claim_C5_thm :
    (∀ (fit : Fit) (s : UserState), s.features = none →
      train_initial_model fit s = (s, false)) ∧
    (∀ (fit : Fit) (s : UserState), s.features = some [] →
      train_initial_model fit s = (s, true)) ∧
    (∀ (fit : Fit) (s : UserState) (df : List Vec), s.features = some df →
      (∀ rows, (fit rows).isSome = true) →
      (train_initial_model fit s).2 = true ∧
      ((mouseOnlySubset df).length < 20 →
        (train_initial_model fit s).1.model_mouse = s.model_mouse) ∧
      ((typingOnlySubset df).length < 20 →
        (train_initial_model fit s).1.model_typing = s.model_typing) ∧
      ((mixedSubset df).length < 20 →
        (train_initial_model fit s).1.model_mixed = s.model_mixed)) := by
  refine ⟨?_, ?_, ?_⟩
  · intro fit s h
    simp only [train_initial_model, h]
  · intro fit s h
    have : train_initial_model fit s = trainSpecialists fit [] s := by
      simp only [train_initial_model, h]
    rw [this]
    rfl
  · intro fit s df hf hfit
    obtain ⟨pm, hm, hmskip⟩ :=
      trainAndSaveSpecialist_total fit (mouseOnlySubset df) mouseFeatures s.model_mouse hfit
    obtain ⟨pt, ht, htskip⟩ :=
      trainAndSaveSpecialist_total fit (typingOnlySubset df) typingFeatures s.model_typing hfit
    obtain ⟨px, hx, hxskip⟩ :=
      trainAndSaveSpecialist_total fit (mixedSubset df) allFeatures s.model_mixed hfit
    have hts : train_initial_model fit s =
        ({ s with model_mouse := pm, model_typing := pt, model_mixed := px }, true) := by
      simp only [train_initial_model, hf, trainSpecialists, hm, ht, hx]
    rw [hts]
    exact ⟨rfl, hmskip, htskip, hxskip⟩

/-- C5 witness: concrete instances — a missing pool fails, a header-only
pool succeeds, a pool of 25 both-active records succeeds with the
single-modality subsets skipped. -/
theorem claim_C5_witness :
    train_initial_model fitConst sNoPool = (sNoPool, false) ∧
    train_initial_model fitConst sEmptyPool = (sEmptyPool, true) ∧
    (train_initial_model fitConst sAllBoth).2 = true :=
  ⟨claim_C5_thm.1 fitConst sNoPool rfl,
   claim_C5_thm.2.1 fitConst sEmptyPool rfl,
   (claim_C5_thm.2.2 fitConst sAllBoth (List.replicate 25 vBoth) rfl
     (fun _ => rfl)).1⟩

/-- Helper: `getD` on a constant list below its length. -/
theorem getD_replicate_of_lt (a : ℚ) (n i : ℕ) (hi : i < n) :
    (List.replicate n a).getD i 0 = a := by
  rw [List.getD_eq_getElem _ _ (by simpa using hi), List.getElem_replicate]

/-- Helper: `getD` on a constant list with the same constant as default. -/
theorem getD_replicate_self (a : ℚ) (n i : ℕ) :
    (List.replicate n a).getD i a = a := by
  induction n generalizing i with
  | zero => rfl
  | succ n ih =>
    cases i with
    | zero => rfl
    | succ i =>
      rw [List.replicate_succ, List.getD_cons_succ]
      exact ih i

/-- Helper: the 5th percentile of a constant score distribution is that
constant. -/
theorem percentile5_replicate (n : ℕ) (hn : 1 ≤ n) (a : ℚ) :
    percentile5 (List.replicate n a) = a := by
  have hsorted : List.Sorted (fun x y : ℚ => x ≤ y) (List.replicate n a) :=
    List.pairwise_replicate.mpr (Or.inr (le_refl a))
  have hn1 : (1:ℚ) ≤ (n:ℚ) := by exact_mod_cast hn
  simp only [percentile5, List.Sorted.insertionSort_eq hsorted, List.length_replicate]
  have h0 : (0:ℚ) ≤ ((n:ℚ) - 1) * 5 / 100 := by
    apply div_nonneg _ (by norm_num)
    apply mul_nonneg _ (by norm_num)
    linarith
  have hfl : (0:ℤ) ≤ (((n:ℚ) - 1) * 5 / 100).floor := Int.floor_nonneg.mpr h0
  have hfloor_le : (((((n:ℚ) - 1) * 5 / 100).floor.toNat : ℕ) : ℚ) ≤
      ((n:ℚ) - 1) * 5 / 100 := by
    have h2 : (((((n:ℚ) - 1) * 5 / 100).floor.toNat : ℕ) : ℤ) =
        (((n:ℚ) - 1) * 5 / 100).floor := Int.toNat_of_nonneg hfl
    have h3 : (((((n:ℚ) - 1) * 5 / 100).floor.toNat : ℕ) : ℚ) =
        ((((n:ℚ) - 1) * 5 / 100).floor : ℚ) := by
      exact_mod_cast congrArg (fun z : ℤ => (z : ℚ)) h2
    rw [h3]
    exact Int.floor_le _
  have hlt : ((n:ℚ) - 1) * 5 / 100 < (n:ℚ) := by linarith
  have hi_lt : ((((n:ℚ) - 1) * 5 / 100).floor.toNat) < n := by
    by_contra hcon
    push_neg at hcon
    have : (n:ℚ) ≤ (((((n:ℚ) - 1) * 5 / 100).floor.toNat : ℕ) : ℚ) := by
      exact_mod_cast hcon
    linarith
  rw [getD_replicate_of_lt a n _ hi_lt, getD_replicate_self]
  ring

/-- Helper: a slot that completed `_train_and_save_specialist` is either
unchanged or holds a complete package, and never loses a package it had. -/
theorem slot_change_of_prior_or_new (prior pm : Option Package)
    (h : pm = prior ∨ ∃ pkg, pm = some pkg) :
    (pm = prior ∨ ∃ pkg, pm = some pkg) ∧
    (prior.isSome = true → pm.isSome = true) := by
  refine ⟨h, ?_⟩
  rcases h with h | ⟨pkg, h⟩
  · intro hs
    rw [h]
    exact hs
  · intro _
    rw [h]
    rfl

/-- C6 counterexample: a retraining run over 20 mouse-only and 20
typing-only records with a fit that succeeds on the mouse subset but
raises on the typing subset. The run reports failure, yet the prior mouse
package (threshold 99) has already been replaced by the freshly trained
one (threshold 0): a failed run does not leave every pre-existing package
unchanged. -/
theorem claim_C6_counterexample :
    (retrain_model fitTypingFails sRetrainFail).2 = false ∧
    (sRetrainFail.model_mouse).map Package.threshold = some 99 ∧
    ((retrain_model fitTypingFails sRetrainFail).1.model_mouse).map
      Package.threshold = some 0 := by
  refine ⟨rfl, rfl, ?_⟩
  have h1 : ((retrain_model fitTypingFails sRetrainFail).1.model_mouse).map
      Package.threshold = some (percentile5 (List.replicate 20 (0:ℚ))) := rfl
  rw [h1, percentile5_replicate 20 (by omega) 0]

/-- Helper: the guarantees of any failed run of the shared training body:
both pool files untouched, the mixed slot (trained last) unchanged, the
mouse and typing slots either unchanged or holding a complete freshly
written package, and no slot that held a package left empty. -/
theorem trainSpecialists_fail_guarantees (fit : Fit) (df : List Vec) (s : UserState)
    (hfail : (trainSpecialists fit df s).2 = false) :
    (trainSpecialists fit df s).1.retraining_pool = s.retraining_pool ∧
    (trainSpecialists fit df s).1.features = s.features ∧
    (trainSpecialists fit df s).1.model_mixed = s.model_mixed ∧
    ((trainSpecialists fit df s).1.model_mouse = s.model_mouse ∨
      ∃ pkg, (trainSpecialists fit df s).1.model_mouse = some pkg) ∧
    ((trainSpecialists fit df s).1.model_typing = s.model_typing ∨
      ∃ pkg, (trainSpecialists fit df s).1.model_typing = some pkg) ∧
    ((s.model_mouse).isSome = true →
      ((trainSpecialists fit df s).1.model_mouse).isSome = true) ∧
    ((s.model_typing).isSome = true →
      ((trainSpecialists fit df s).1.model_typing).isSome = true) := by
  cases h1 : trainAndSaveSpecialist fit (mouseOnlySubset df) mouseFeatures s.model_mouse with
  | none =>
      have hre : trainSpecialists fit df s = (s, false) := by
        simp only [trainSpecialists, h1]
      rw [hre]
      exact ⟨rfl, rfl, rfl, Or.inl rfl, Or.inl rfl, fun h => h, fun h => h⟩
  | some pm =>
      have hm2 := slot_change_of_prior_or_new s.model_mouse pm
        (trainAndSaveSpecialist_prior_or_new fit _ mouseFeatures s.model_mouse pm h1)
      cases h2 : trainAndSaveSpecialist fit (typingOnlySubset df) typingFeatures s.model_typing with
      | none =>
          have hre : trainSpecialists fit df s = ({ s with model_mouse := pm }, false) := by
            simp only [trainSpecialists, h1, h2]
          rw [hre]
          exact ⟨rfl, rfl, rfl, hm2.1, Or.inl rfl, hm2.2, fun h => h⟩
      | some pt =>
          have ht2 := slot_change_of_prior_or_new s.model_typing pt
            (trainAndSaveSpecialist_prior_or_new fit _ typingFeatures s.model_typing pt h2)
          cases h3 : trainAndSaveSpecialist fit (mixedSubset df) allFeatures s.model_mixed with
          | none =>
              have hre : trainSpecialists fit df s =
                  ({ s with model_mouse := pm, model_typing := pt }, false) := by
                simp only [trainSpecialists, h1, h2, h3]
              rw [hre]
              exact ⟨rfl, rfl, rfl, hm2.1, ht2.1, hm2.2, ht2.2⟩
          | some px =>
              have hre : (trainSpecialists fit df s).2 = true := by
                simp only [trainSpecialists, h1, h2, h3]
              exact absurd hfail (by rw [hre]; simp)

/-- C6 (amended): a failed training or retraining run never corrupts
state. For a retraining run (both pool files present): the retraining pool
is untouched, the mixed slot (trained last) is unchanged, each of the
mouse and typing slots is either unchanged or holds a complete freshly
written package (atomic replacement; never a partial artifact), and a slot
that held a package before still holds one. For a failed initial training
run: the same guarantees, with both pool files untouched. In both cases a
specialist trained successfully before the failure point may have had its
prior package replaced. -/
theorem claim_C6_thm :
    (∀ (fit : Fit) (s : UserState) (df rdf : List Vec),
      s.features = some df → s.retraining_pool = some rdf →
      (retrain_model fit s).2 = false →
      (retrain_model fit s).1.retraining_pool = some rdf ∧
      (retrain_model fit s).1.model_mixed = s.model_mixed ∧
      ((retrain_model fit s).1.model_mouse = s.model_mouse ∨
        ∃ pkg, (retrain_model fit s).1.model_mouse = some pkg) ∧
      ((retrain_model fit s).1.model_typing = s.model_typing ∨
        ∃ pkg, (retrain_model fit s).1.model_typing = some pkg) ∧
      ((s.model_mouse).isSome = true →
        ((retrain_model fit s).1.model_mouse).isSome = true) ∧
      ((s.model_typing).isSome = true →
        ((retrain_model fit s).1.model_typing).isSome = true)) ∧
    (∀ (fit : Fit) (s : UserState),
      (train_initial_model fit s).2 = false →
      (train_initial_model fit s).1.retraining_pool = s.retraining_pool ∧
      (train_initial_model fit s).1.features = s.features ∧
      (train_initial_model fit s).1.model_mixed = s.model_mixed ∧
      ((train_initial_model fit s).1.model_mouse = s.model_mouse ∨
        ∃ pkg, (train_initial_model fit s).1.model_mouse = some pkg) ∧
      ((train_initial_model fit s).1.model_typing = s.model_typing ∨
        ∃ pkg, (train_initial_model fit s).1.model_typing = some pkg) ∧
      ((s.model_mouse).isSome = true →
        ((train_initial_model fit s).1.model_mouse).isSome = true) ∧
      ((s.model_typing).isSome = true →
        ((train_initial_model fit s).1.model_typing).isSome = true)) := by
  constructor
  · intro fit s df rdf hf hr hfail
    rcases hts : trainSpecialists fit (df ++ rdf) s with ⟨s1, b⟩
    cases b with
    | true =>
        have hre : (retrain_model fit s).2 = true := by
          simp only [retrain_model, hf, hr, hts]
        exact absurd hfail (by rw [hre]; simp)
    | false =>
        have hre : retrain_model fit s = (s1, false) := by
          simp only [retrain_model, hf, hr, hts]
        have hg := trainSpecialists_fail_guarantees fit (df ++ rdf) s (by rw [hts])
        rw [hts] at hg
        rw [hre]
        exact ⟨hg.1.trans hr, hg.2.2.1, hg.2.2.2.1, hg.2.2.2.2.1,
          hg.2.2.2.2.2.1, hg.2.2.2.2.2.2⟩
  · intro fit s hfail
    cases hf : s.features with
    | none =>
        have hre : train_initial_model fit s = (s, false) := by
          simp only [train_initial_model, hf]
        rw [hre]
        exact ⟨rfl, hf, rfl, Or.inl rfl, Or.inl rfl, fun h => h, fun h => h⟩
    | some df =>
        have hre : train_initial_model fit s = trainSpecialists fit df s := by
          simp only [train_initial_model, hf]
        rw [hre] at hfail ⊢
        have hg := trainSpecialists_fail_guarantees fit df s hfail
        exact ⟨hg.1, hg.2.1.trans hf, hg.2.2.1, hg.2.2.2.1, hg.2.2.2.2.1,
          hg.2.2.2.2.2.1, hg.2.2.2.2.2.2⟩

/-- C6 witness: both amended guarantees instantiated on the concrete
failed runs (the fit raises on the typing subset): one retraining run and
one initial training run over the same profile. -/
theorem claim_C6_witness :
    ((retrain_model fitTypingFails sRetrainFail).1.retraining_pool = some [] ∧
     (retrain_model fitTypingFails sRetrainFail).1.model_mixed =
       sRetrainFail.model_mixed ∧
     ((retrain_model fitTypingFails sRetrainFail).1.model_mouse =
         sRetrainFail.model_mouse ∨
       ∃ pkg, (retrain_model fitTypingFails sRetrainFail).1.model_mouse = some pkg) ∧
     ((retrain_model fitTypingFails sRetrainFail).1.model_typing =
         sRetrainFail.model_typing ∨
       ∃ pkg, (retrain_model fitTypingFails sRetrainFail).1.model_typing = some pkg) ∧
     ((sRetrainFail.model_mouse).isSome = true →
       ((retrain_model fitTypingFails sRetrainFail).1.model_mouse).isSome = true) ∧
     ((sRetrainFail.model_typing).isSome = true →
       ((retrain_model fitTypingFails sRetrainFail).1.model_typing).isSome = true)) ∧
    ((train_initial_model fitTypingFails sRetrainFail).1.retraining_pool =
       sRetrainFail.retraining_pool ∧
     (train_initial_model fitTypingFails sRetrainFail).1.features =
       sRetrainFail.features ∧
     (train_initial_model fitTypingFails sRetrainFail).1.model_mixed =
       sRetrainFail.model_mixed ∧
     ((train_initial_model fitTypingFails sRetrainFail).1.model_mouse =
         sRetrainFail.model_mouse ∨
       ∃ pkg, (train_initial_model fitTypingFails sRetrainFail).1.model_mouse =
         some pkg) ∧
     ((train_initial_model fitTypingFails sRetrainFail).1.model_typing =
         sRetrainFail.model_typing ∨
       ∃ pkg, (train_initial_model fitTypingFails sRetrainFail).1.model_typing =
         some pkg) ∧
     ((sRetrainFail.model_mouse).isSome = true →
       ((train_initial_model fitTypingFails sRetrainFail).1.model_mouse).isSome = true) ∧
     ((sRetrainFail.model_typing).isSome = true →
       ((train_initial_model fitTypingFails sRetrainFail).1.model_typing).isSome = true)) :=
  ⟨claim_C6_thm.1 fitTypingFails sRetrainFail
      (List.replicate 20 vMouse ++ List.replicate 20 vTyping) [] rfl rfl rfl,
   claim_C6_thm.2 fitTypingFails sRetrainFail rfl⟩

/-- C10: when both pool files exist and every segmented subset of the
concatenated data is below the minimum viable count of 20, a retraining
run trains and writes no package at all, yet still reports success and
truncates the retraining pool to its header-only empty state. -/
theorem claim_C10_thm (fit : Fit) (s : UserState) (df rdf : List Vec)
    (hf : s.features = some df) (hr : s.retraining_pool = some rdf)
    (h1 : (mouseOnlySubset (df ++ rdf)).length < 20)
    (h2 : (typingOnlySubset (df ++ rdf)).length < 20)
    (h3 : (mixedSubset (df ++ rdf)).length < 20) :
    retrain_model fit s = ({ s with retraining_pool := some [] }, true) := by
  have e1 : trainAndSaveSpecialist fit (mouseOnlySubset (df ++ rdf)) mouseFeatures
      s.model_mouse = some s.model_mouse := by
    unfold trainAndSaveSpecialist
    rw [if_pos h1]
  have e2 : trainAndSaveSpecialist fit (typingOnlySubset (df ++ rdf)) typingFeatures
      s.model_typing = some s.model_typing := by
    unfold trainAndSaveSpecialist
    rw [if_pos h2]
  have e3 : trainAndSaveSpecialist fit (mixedSubset (df ++ rdf)) allFeatures
      s.model_mixed = some s.model_mixed := by
    unfold trainAndSaveSpecialist
    rw [if_pos h3]
  have hts : trainSpecialists fit (df ++ rdf) s = (s, true) := by
    simp only [trainSpecialists, e1, e2, e3]
  simp only [retrain_model, hf, hr, hts]

/-- C10 witness: a concrete retraining run with one pooled record — every
subset is undersized, nothing is trained, success is reported and the
retraining pool is truncated. -/
theorem claim_C10_witness :
    retrain_model fitConst sSmallPools =
      ({ sSmallPools with retraining_pool := some [] }, true) :=
  claim_C10_thm fitConst sSmallPools [] [vMouse] rfl rfl
    (by decide) (by decide) (by decide)

/-- Helper: componentwise diversity order is transitive. -/
theorem diversityLE_trans (a b c : DiversityStatus)
    (h1 : DiversityLE a b) (h2 : DiversityLE b c) : DiversityLE a c := by
  obtain ⟨t1, k1, m1, d1, r1⟩ := h1
  obtain ⟨t2, k2, m2, d2, r2⟩ := h2
  exact ⟨t1.trans t2, k1.trans k2, m1.trans m2, d1.trans d2, fun h => r2 (r1 h)⟩

/-- Helper: appending one training sample to the primary pool never
decreases any diversity count and preserves readiness. -/
theorem check_diversity_save_le (s : UserState) (v : Vec) :
    DiversityLE (check_diversity s) (check_diversity (save_features s v false).1) := by
  cases hf : s.features with
  | none =>
      have h1 : check_diversity s = ⟨0, 0, 0, 0, false⟩ := by
        simp only [check_diversity, hf]
      rw [h1]
      exact ⟨Nat.zero_le _, Nat.zero_le _, Nat.zero_le _, Nat.zero_le _,
        fun h => absurd h Bool.false_ne_true⟩
  | some l =>
      have hsave : (save_features s v false).1.features = some (l ++ [v]) := by
        simp only [save_features, hf, Bool.false_eq_true, if_false, Option.getD_some]
      unfold DiversityLE
      simp only [check_diversity, hf, hsave, List.countP_append, List.length_append,
        List.countP_cons, List.countP_nil, List.length_cons, List.length_nil]
      refine ⟨by omega, by omega, by omega, by omega, ?_⟩
      intro h
      rw [decide_eq_true_iff] at h ⊢
      omega

/-- C9: diversity counts (total, keyboard, mouse, digraphs) never decrease
as further training samples are submitted to the primary pool, and once
`is_ready` is true it stays true for every later evaluation. -/
theorem claim_C9_thm (s : UserState) (vs : List Vec) :
    DiversityLE (check_diversity s) (check_diversity (submitSamples s vs)) := by
  induction vs generalizing s with
  | nil =>
      exact ⟨le_refl _, le_refl _, le_refl _, le_refl _, fun h => h⟩
  | cons v vs ih =>
      have hstep := check_diversity_save_le s v
      have hfold : submitSamples s (v :: vs) =
          submitSamples (save_features s v false).1 vs := rfl
      rw [hfold]
      exact diversityLE_trans _ _ _ hstep (ih (save_features s v false).1)

/-- C9 witness: the monotonicity guarantee instantiated on a concrete
profile and batch of submissions. -/
theorem claim_C9_witness :
    DiversityLE (check_diversity sNoPool)
      (check_diversity (submitSamples sNoPool [vMouse, vTyping])) :=
  claim_C9_thm sNoPool [vMouse, vTyping]

/-- Helper: in an ascending-sorted list, fewer than `k` elements lie
strictly below the element at index `k`. -/
theorem countP_lt_getD_of_sorted (s : List ℚ) (k : ℕ)
    (hs : List.Sorted (fun a b : ℚ => a ≤ b) s) (hk : k < s.length) :
    s.countP (fun x => decide (x < s.getD k 0)) ≤ k := by
  induction s generalizing k with
  | nil => simp at hk
  | cons a tl ih =>
      rw [List.sorted_cons] at hs
      obtain ⟨ha, htl⟩ := hs
      cases k with
      | zero =>
          rw [List.getD_cons_zero, List.countP_cons]
          have h1 : tl.countP (fun x => decide (x < a)) = 0 := by
            rw [List.countP_eq_zero]
            intro x hx
            simp only [decide_eq_true_iff]
            exact not_lt.mpr (ha x hx)
          simp [h1]
      | succ k =>
          have hk' : k < tl.length := by simpa using hk
          rw [List.getD_cons_succ, List.countP_cons]
          have hbound := ih k htl hk'
          split <;> omega

/-- Helper: casting `⌊q⌋.toNat` back to `ℚ` stays below a nonnegative `q`. -/
theorem floor_toNat_cast_le (q : ℚ) (h0 : 0 ≤ q) :
    ((q.floor.toNat : ℕ) : ℚ) ≤ q := by
  have hfl : (0:ℤ) ≤ q.floor := Int.floor_nonneg.mpr h0
  have h2 : ((q.floor.toNat : ℕ) : ℤ) = q.floor := Int.toNat_of_nonneg hfl
  have h3 : ((q.floor.toNat : ℕ) : ℚ) = ((q.floor : ℤ) : ℚ) := by
    exact_mod_cast congrArg (fun z : ℤ => (z : ℚ)) h2
  rw [h3]
  exact Int.floor_le q

/-- Helper: a nonnegative `q` lies below `⌊q⌋.toNat + 1`. -/
theorem lt_floor_toNat_add_one (q : ℚ) (h0 : 0 ≤ q) :
    q < ((q.floor.toNat : ℕ) : ℚ) + 1 := by
  have hfl : (0:ℤ) ≤ q.floor := Int.floor_nonneg.mpr h0
  have h2 : ((q.floor.toNat : ℕ) : ℤ) = q.floor := Int.toNat_of_nonneg hfl
  have h3 : ((q.floor.toNat : ℕ) : ℚ) = ((q.floor : ℤ) : ℚ) := by
    exact_mod_cast congrArg (fun z : ℤ => (z : ℚ)) h2
  rw [h3]
  exact Int.lt_floor_add_one q

/-- Helper: at most `i + 1` elements of a sorted list lie strictly below
the linear interpolation between its `i`-th and `(i+1)`-th entries. -/
theorem countP_lt_linear_interp (s : List ℚ) (i : ℕ) (q : ℚ)
    (hsorted : List.Sorted (fun a b : ℚ => a ≤ b) s)
    (hi1 : i + 1 < s.length)
    (hfrac0 : (i:ℚ) ≤ q) (hfrac1 : q < (i:ℚ) + 1) :
    s.countP (fun x => decide (x <
      s.getD i 0 + (q - (i:ℚ)) * (s.getD (i+1) (s.getD i 0) - s.getD i 0))) ≤ i + 1 := by
  have hi_lt : i < s.length := Nat.lt_of_succ_lt hi1
  have hD : s.getD (i+1) (s.getD i 0) = s.getD (i+1) 0 := by
    rw [List.getD_eq_getElem _ _ hi1, List.getD_eq_getElem _ _ hi1]
  have hlohi : s.getD i 0 ≤ s.getD (i+1) 0 := by
    rw [List.getD_eq_getElem _ _ hi_lt, List.getD_eq_getElem _ _ hi1]
    have h := hsorted.rel_get_of_lt (a := ⟨i, hi_lt⟩) (b := ⟨i+1, hi1⟩)
      (Fin.mk_lt_mk.mpr (Nat.lt_succ_self i))
    simpa using h
  have ht : s.getD i 0 + (q - (i:ℚ)) * (s.getD (i+1) (s.getD i 0) - s.getD i 0) ≤
      s.getD (i+1) 0 := by
    rw [hD]
    nlinarith [hlohi, hfrac0, hfrac1]
  have hmono : s.countP (fun x => decide (x <
      s.getD i 0 + (q - (i:ℚ)) * (s.getD (i+1) (s.getD i 0) - s.getD i 0))) ≤
      s.countP (fun x => decide (x < s.getD (i+1) 0)) := by
    apply List.countP_mono_left
    intro x _ hx
    rw [decide_eq_true_iff] at hx ⊢
    exact lt_of_lt_of_le hx ht
  exact le_trans hmono (countP_lt_getD_of_sorted s (i+1) hsorted hi1)

/-- Helper: fewer than `⌊(n-1)·5/100⌋ + 1` of the scores lie strictly
below their 5th percentile; scaled to avoid division, at most
`5·(n-1)/100 + 1` of `n` scores do — i.e. roughly 5%. -/
theorem percentile5_count_le (l : List ℚ) (hl : 2 ≤ l.length) :
    100 * l.countP (fun x => decide (x < percentile5 l)) ≤
      5 * (l.length - 1) + 100 := by
  have hn1 : (2:ℚ) ≤ (l.length : ℚ) := by exact_mod_cast hl
  have h0 : (0:ℚ) ≤ ((l.length:ℚ) - 1) * 5 / 100 :=
    div_nonneg (mul_nonneg (by linarith) (by norm_num)) (by norm_num)
  have hsorted := List.sorted_insertionSort (fun a b : ℚ => a ≤ b) l
  have hperm := List.perm_insertionSort (fun a b : ℚ => a ≤ b) l
  have hlen := List.length_insertionSort (fun a b : ℚ => a ≤ b) l
  have hfrac0 : ((((((l.length:ℚ) - 1) * 5 / 100).floor.toNat : ℕ)) : ℚ) ≤
      ((l.length:ℚ) - 1) * 5 / 100 := floor_toNat_cast_le _ h0
  have hfrac1 : ((l.length:ℚ) - 1) * 5 / 100 <
      ((((((l.length:ℚ) - 1) * 5 / 100).floor.toNat : ℕ)) : ℚ) + 1 :=
    lt_floor_toNat_add_one _ h0
  have hq_lt : ((l.length:ℚ) - 1) * 5 / 100 < (l.length:ℚ) - 1 := by linarith
  have hi1_lt : (((l.length:ℚ) - 1) * 5 / 100).floor.toNat + 1 < l.length := by
    have h3 : (((((l.length:ℚ) - 1) * 5 / 100).floor.toNat : ℕ) : ℚ) + 1 <
        (l.length:ℚ) := by linarith
    exact_mod_cast h3
  have hi1_lt_s : (((l.length:ℚ) - 1) * 5 / 100).floor.toNat + 1 <
      (List.insertionSort (fun a b : ℚ => a ≤ b) l).length := by
    rw [hlen]
    exact hi1_lt
  have hkey := countP_lt_linear_interp (List.insertionSort (fun a b : ℚ => a ≤ b) l)
    ((((l.length:ℚ) - 1) * 5 / 100).floor.toNat) (((l.length:ℚ) - 1) * 5 / 100)
    hsorted hi1_lt_s hfrac0 hfrac1
  have hcount_eq : l.countP (fun x => decide (x < percentile5 l)) =
      (List.insertionSort (fun a b : ℚ => a ≤ b) l).countP
        (fun x => decide (x < percentile5 l)) :=
    (hperm.countP_eq _).symm
  have hle : l.countP (fun x => decide (x < percentile5 l)) ≤
      (((l.length:ℚ) - 1) * 5 / 100).floor.toNat + 1 := by
    rw [hcount_eq]
    exact hkey
  have hmain : 100 * ((((l.length:ℚ) - 1) * 5 / 100).floor.toNat) ≤
      5 * (l.length - 1) := by
    have h4 : (100:ℚ) * (((((l.length:ℚ) - 1) * 5 / 100).floor.toNat : ℕ) : ℚ) ≤
        5 * ((l.length:ℚ) - 1) := by linarith
    have hge1 : 1 ≤ l.length := by omega
    have h5 : ((l.length:ℚ) - 1) = ((l.length - 1 : ℕ) : ℚ) := by
      rw [Nat.cast_sub hge1, Nat.cast_one]
    rw [h5] at h4
    exact_mod_cast h4
  omega

/-- C8: for a modality subset of at least the minimum viable 20 records on
which the fit succeeds, the calibrated threshold is exactly the 5th
percentile of the freshly trained detector's scores over that subset, and
re-scoring those records flags (score strictly below threshold) at most
`5·(n-1)/100 + 1` of the `n` records — about 5%, by construction of the
percentile. -/
theorem claim_C8_thm (fit : Fit) (df : List Vec) (proj : Vec → List ℚ)
    (prior : Option Package) (m : List ℚ → ℚ)
    (h20 : 20 ≤ df.length) (hfit : fit (df.map proj) = some m) :
    trainAndSaveSpecialist fit df proj prior =
      some (some ⟨m, percentile5 ((df.map proj).map m)⟩) ∧
    100 * ((df.map proj).map m).countP
        (fun x => decide (x < percentile5 ((df.map proj).map m))) ≤
      5 * (df.length - 1) + 100 := by
  constructor
  · unfold trainAndSaveSpecialist
    rw [if_neg (by omega), hfit]
  · have hlen2 : ((df.map proj).map m).length = df.length := by simp
    have h2 : 2 ≤ ((df.map proj).map m).length := by omega
    have hres := percentile5_count_le ((df.map proj).map m) h2
    rw [hlen2] at hres
    exact hres

/-- C8 witness: the guarantee instantiated on 20 mouse-only records and a
constant-zero detector — the threshold is the 5th percentile of the
training scores and the flagged count obeys the 5% bound. -/
theorem claim_C8_witness :
    trainAndSaveSpecialist fitConst (List.replicate 20 vMouse) mouseFeatures none =
      some (some ⟨fun _ => 0,
        percentile5 (((List.replicate 20 vMouse).map mouseFeatures).map (fun _ => 0))⟩) ∧
    100 * (((List.replicate 20 vMouse).map mouseFeatures).map (fun _ => (0:ℚ))).countP
        (fun x => decide (x <
          percentile5 (((List.replicate 20 vMouse).map mouseFeatures).map (fun _ => 0)))) ≤
      5 * ((List.replicate 20 vMouse).length - 1) + 100 :=
  claim_C8_thm fitConst (List.replicate 20 vMouse) mouseFeatures none
    (fun _ => 0) (by simp) rfl
